import Mathlib

/-!
A verification development for the spyder server core: the in-memory device
connection registry (device_manager.py), the durable command log and its CRUD
operations (db/crud.py), the command queue / dispatcher (command_queue.py) and
the realtime event handlers (websocket.py), shallowly embedded as executable
Lean definitions.  Python dicts are modelled as association lists with
insert-or-overwrite semantics, `datetime.utcnow()` as an explicit `now : Nat`
argument supplied at each call site, SQL tables as lists of rows in insertion
order, and opaque JSON payloads as `Option String`.
-/

namespace Spyder

/-! ### Association-list model of Python dicts -/

/-- Lookup in an association list: Python `d.get(k)`. -/
def mapLookup {α : Type} : List (String × α) → String → Option α
  | [], _ => none
  | (k2, v) :: rest, k => if k2 = k then some v else mapLookup rest k

/-- Insert-or-overwrite: Python `d[k] = v`. -/
def mapInsert {α : Type} : List (String × α) → String → α → List (String × α)
  | [], k, v => [(k, v)]
  | (k2, v2) :: rest, k, v =>
      if k2 = k then (k, v) :: rest else (k2, v2) :: mapInsert rest k v

/-- Remove a key: Python `d.pop(k, None)` (drops every pair at that key; with
the insert-or-overwrite discipline a key occurs at most once). -/
def mapErase {α : Type} : List (String × α) → String → List (String × α)
  | [], _ => []
  | (k2, v2) :: rest, k =>
      if k2 = k then mapErase rest k else (k2, v2) :: mapErase rest k

theorem mapLookup_insert_self {α : Type} (m : List (String × α)) (k : String) (v : α) :
    mapLookup (mapInsert m k v) k = some v := by
  induction m with
  | nil => simp [mapInsert, mapLookup]
  | cons p rest ih =>
      obtain ⟨k2, v2⟩ := p
      by_cases h : k2 = k
      · simp [mapInsert, h, mapLookup]
      · simp [mapInsert, h, mapLookup, ih]

theorem mapLookup_insert_other {α : Type} (m : List (String × α)) (k k2 : String) (v : α)
    (h : k ≠ k2) : mapLookup (mapInsert m k v) k2 = mapLookup m k2 := by
  induction m with
  | nil => simp [mapInsert, mapLookup, h]
  | cons p rest ih =>
      obtain ⟨k3, v3⟩ := p
      by_cases h3 : k3 = k
      · subst h3
        simp [mapInsert, mapLookup, h]
      · simp [mapInsert, h3, mapLookup, ih]

theorem mapLookup_erase_self {α : Type} (m : List (String × α)) (k : String) :
    mapLookup (mapErase m k) k = none := by
  induction m with
  | nil => rfl
  | cons p rest ih =>
      obtain ⟨k2, v2⟩ := p
      by_cases h : k2 = k
      · simpa [mapErase, h] using ih
      · simpa [mapErase, h, mapLookup] using ih

theorem mapLookup_erase_other {α : Type} (m : List (String × α)) (k k2 : String)
    (h : k ≠ k2) : mapLookup (mapErase m k) k2 = mapLookup m k2 := by
  induction m with
  | nil => rfl
  | cons p rest ih =>
      obtain ⟨k3, v3⟩ := p
      have h6 : ¬(k = k2) := h
      by_cases h3 : k3 = k
      · have h5 : ¬(k3 = k2) := by
          intro hk; exact h (h3 ▸ hk)
        simp [mapErase, h3, mapLookup, h5, h6, ih]
      · by_cases h4 : k3 = k2
        · have h7 : ¬(k2 = k) := fun hk => h hk.symm
          subst h4
          simp [mapErase, h7, mapLookup]
        · simp [mapErase, h3, mapLookup, h4, ih]

/-! ### Registry data model (device_manager.py) -/

/-- models/device.py `DeviceStatusUpdate` (pydantic): a validated realtime
status payload. -/
structure DeviceStatusUpdate where
  battery : Nat
  charging : Bool
  network_type : String
  signal_strength : Nat
  camera_active : Bool
  audio_active : Bool
  location_enabled : Bool
deriving DecidableEq, Repr

/-- device_manager.py `ConnectedDevice`. -/
structure ConnectedDevice where
  device_id : String
  socket_id : String
  connected_at : Nat
  last_heartbeat : Nat
  status : Option DeviceStatusUpdate
  camera_active : Bool
  audio_active : Bool
deriving DecidableEq, Repr

/-- device_manager.py `ConnectedController`. -/
structure ConnectedController where
  controller_id : String
  socket_id : String
  target_device_id : String
  connected_at : Nat
deriving DecidableEq, Repr

/-- device_manager.py `DeviceManager`: the four dicts of the in-memory
connection registry. -/
structure DeviceManager where
  devices : List (String × ConnectedDevice)
  controllers : List (String × ConnectedController)
  socket_to_device : List (String × String)
  socket_to_controller : List (String × String)
deriving DecidableEq, Repr

/-- `DeviceManager.__init__`: all four dicts empty. -/
def emptyManager : DeviceManager := ⟨[], [], [], []⟩

/-- `DeviceManager.register_device`. -/
def register_device (m : DeviceManager) (device_id socket_id : String) (now : Nat) :
    DeviceManager × ConnectedDevice :=
  let device : ConnectedDevice :=
    { device_id := device_id, socket_id := socket_id, connected_at := now,
      last_heartbeat := now, status := none, camera_active := false,
      audio_active := false }
  ({ m with devices := mapInsert m.devices device_id device,
            socket_to_device := mapInsert m.socket_to_device socket_id device_id },
   device)

/-- `DeviceManager.unregister_device`. -/
def unregister_device (m : DeviceManager) (socket_id : String) :
    DeviceManager × Option String :=
  match mapLookup m.socket_to_device socket_id with
  | none => (m, none)
  | some device_id =>
      ({ m with socket_to_device := mapErase m.socket_to_device socket_id,
                devices := mapErase m.devices device_id },
       some device_id)

/-- `DeviceManager.get_device`. -/
def get_device (m : DeviceManager) (device_id : String) : Option ConnectedDevice :=
  mapLookup m.devices device_id

/-- `DeviceManager.get_device_by_socket`. -/
def get_device_by_socket (m : DeviceManager) (socket_id : String) : Option ConnectedDevice :=
  match mapLookup m.socket_to_device socket_id with
  | some device_id => mapLookup m.devices device_id
  | none => none

/-- `DeviceManager.is_device_online`. -/
def is_device_online (m : DeviceManager) (device_id : String) : Bool :=
  (mapLookup m.devices device_id).isSome

/-- `DeviceManager.update_device_status`. -/
def update_device_status (m : DeviceManager) (device_id : String)
    (status : DeviceStatusUpdate) (now : Nat) : DeviceManager :=
  match mapLookup m.devices device_id with
  | none => m
  | some device =>
      let device2 : ConnectedDevice :=
        { device with status := some status, last_heartbeat := now,
                      camera_active := status.camera_active,
                      audio_active := status.audio_active }
      { m with devices := mapInsert m.devices device_id device2 }

/-- `DeviceManager.update_heartbeat`. -/
def update_heartbeat (m : DeviceManager) (device_id : String) (now : Nat) : DeviceManager :=
  match mapLookup m.devices device_id with
  | none => m
  | some device =>
      let device2 : ConnectedDevice := { device with last_heartbeat := now }
      { m with devices := mapInsert m.devices device_id device2 }

/-- `DeviceManager.register_controller`. -/
def register_controller (m : DeviceManager) (controller_id socket_id target_device_id : String)
    (now : Nat) : DeviceManager × ConnectedController :=
  let controller : ConnectedController :=
    { controller_id := controller_id, socket_id := socket_id,
      target_device_id := target_device_id, connected_at := now }
  ({ m with controllers := mapInsert m.controllers controller_id controller,
            socket_to_controller := mapInsert m.socket_to_controller socket_id controller_id },
   controller)

/-- `DeviceManager.unregister_controller`. -/
def unregister_controller (m : DeviceManager) (socket_id : String) :
    DeviceManager × Option String :=
  match mapLookup m.socket_to_controller socket_id with
  | none => (m, none)
  | some controller_id =>
      ({ m with socket_to_controller := mapErase m.socket_to_controller socket_id,
                controllers := mapErase m.controllers controller_id },
       some controller_id)

/-- `DeviceManager.get_controller_by_socket`. -/
def get_controller_by_socket (m : DeviceManager) (socket_id : String) :
    Option ConnectedController :=
  match mapLookup m.socket_to_controller socket_id with
  | some controller_id => mapLookup m.controllers controller_id
  | none => none

/-- `DeviceManager.get_controllers_for_device`. -/
def get_controllers_for_device (m : DeviceManager) (device_id : String) :
    List ConnectedController :=
  (m.controllers.map Prod.snd).filter (fun c => c.target_device_id = device_id)

/-- `DeviceManager.get_device_socket_id`. -/
def get_device_socket_id (m : DeviceManager) (device_id : String) : Option String :=
  (mapLookup m.devices device_id).map ConnectedDevice.socket_id

/-! ### Command log data model (db/models.py, db/crud.py) -/

/-- db/models.py `CommandStatusEnum`. -/
inductive CommandStatusEnum
  | pending
  | queued
  | delivered
  | executing
  | completed
  | failed
deriving DecidableEq, Repr

/-- db/models.py `Command` row.  `created_at`/`delivered_at`/`completed_at`
are `utcnow` instants modelled as `Nat`; the id is the uuid4 string chosen at
creation; `params` is the opaque JSON payload. -/
structure Command where
  id : String
  device_id : String
  action : String
  params : Option String
  status : CommandStatusEnum
  created_at : Nat
  delivered_at : Option Nat
  completed_at : Option Nat
  error : Option String
deriving DecidableEq, Repr

/-- Python truthiness of the optional `error` argument in
crud.update_command_status / CommandQueue.mark_completed (`if error:`);
`None` and the empty string are falsy. -/
def errorTruthy : Option String → Bool
  | none => false
  | some s => !(s = "")

/-- crud.create_command: appends a fresh row (the commands table in insertion
order); the uuid and the clock instant are passed explicitly. -/
def create_command (db : List Command) (id device_id action : String)
    (params : Option String) (status : CommandStatusEnum) (now : Nat) :
    List Command × Command :=
  let command : Command :=
    { id := id, device_id := device_id, action := action, params := params,
      status := status, created_at := now, delivered_at := none,
      completed_at := none, error := none }
  (db ++ [command], command)

/-- crud.get_command: first row with the given primary key. -/
def get_command (db : List Command) (command_id : String) : Option Command :=
  db.find? (fun c => c.id = command_id)

/-- The `status IN (PENDING, QUEUED)` filter of crud.get_pending_commands. -/
def isPendingStatus (s : CommandStatusEnum) : Bool :=
  s = CommandStatusEnum.pending || s = CommandStatusEnum.queued

/-- The `ORDER BY created_at` relation. -/
def createdLE (a b : Command) : Prop := a.created_at ≤ b.created_at

instance : DecidableRel createdLE := fun a b => Nat.decLe a.created_at b.created_at

instance : IsTotal Command createdLE := ⟨fun a b => Nat.le_total a.created_at b.created_at⟩

instance : IsTrans Command createdLE := ⟨fun _ _ _ hab hbc => Nat.le_trans hab hbc⟩

/-- crud.get_pending_commands: pending/queued rows of one device ordered by
creation time. -/
def get_pending_commands (db : List Command) (device_id : String) : List Command :=
  List.insertionSort createdLE
    (db.filter (fun c => c.device_id = device_id && isPendingStatus c.status))

/-- The per-row effect of crud.update_command_status: set the status, stamp
`delivered_at` on DELIVERED, stamp `completed_at` on COMPLETED/FAILED, and set
the error column only when the error argument is truthy. -/
def applyUpdate (c : Command) (status : CommandStatusEnum) (error : Option String)
    (now : Nat) : Command :=
  let c1 := { c with status := status }
  let c2 :=
    if status = CommandStatusEnum.delivered then { c1 with delivered_at := some now }
    else if status = CommandStatusEnum.completed || status = CommandStatusEnum.failed then
      { c1 with completed_at := some now }
    else c1
  if errorTruthy error then { c2 with error := error } else c2

/-- crud.update_command_status: `UPDATE commands SET ... WHERE id = command_id`. -/
def update_command_status (db : List Command) (command_id : String)
    (status : CommandStatusEnum) (error : Option String) (now : Nat) : List Command :=
  db.map (fun c => if c.id = command_id then applyUpdate c status error now else c)

/-! ### Command queue / dispatcher (services/command_queue.py) -/

/-- CommandQueue.queue_command: the online check decides the initial status,
then the row is created; returns (new table, created row, was_delivered
flag). -/
def queue_command (reg : DeviceManager) (db : List Command) (id device_id action : String)
    (params : Option String) (now : Nat) : List Command × Command × Bool :=
  let is_online := is_device_online reg device_id
  let status :=
    if is_online then CommandStatusEnum.delivered else CommandStatusEnum.queued
  let res := create_command db id device_id action params status now
  (res.1, res.2, is_online)

/-- CommandQueue.mark_completed: FAILED when the error argument is truthy,
COMPLETED otherwise. -/
def mark_completed (db : List Command) (command_id : String) (error : Option String)
    (now : Nat) : List Command :=
  let status :=
    if errorTruthy error then CommandStatusEnum.failed else CommandStatusEnum.completed
  update_command_status db command_id status error now

/-- The 1-based scan `for i, cmd in enumerate(pending, 1): if cmd.id == command_id`
inside CommandQueue.get_queue_position. -/
def findPos (l : List Command) (command_id : String) (i : Nat) : Option Nat :=
  match l with
  | [] => none
  | c :: rest => if c.id = command_id then some i else findPos rest command_id (i + 1)

/-- CommandQueue.get_queue_position. -/
def get_queue_position (db : List Command) (command_id : String) : Option Nat :=
  match get_command db command_id with
  | none => none
  | some command =>
      if isPendingStatus command.status then
        findPos (get_pending_commands db command.device_id) command_id 1
      else none

/-- The CommandResponse built inside the deliver loop: the pre-fetched row
with status DELIVERED and the delivery instant. -/
def respDelivered (c : Command) (now : Nat) : Command :=
  { c with status := CommandStatusEnum.delivered, delivered_at := some now }

/-- CommandQueue.deliver_queued_commands: fetch the pending/queued rows in
creation order, mark each DELIVERED, and return the responses in that order. -/
def deliver_queued_commands (db : List Command) (device_id : String) (now : Nat) :
    List Command × List Command :=
  let commands := get_pending_commands db device_id
  (commands.foldl
     (fun acc cmd => update_command_status acc cmd.id CommandStatusEnum.delivered none now)
     db,
   commands.map (fun cmd => respDelivered cmd now))

/-! ### Realtime event handlers (services/websocket.py) -/

/-- A Socket.IO emit performed by a handler: the event name and the room or
socket it is addressed to. -/
structure Emit where
  event : String
  target : String
deriving DecidableEq, Repr

/-- db/models.py `DeviceStatusEnum` (the durable online/offline flag). -/
inductive DeviceStatusEnumDB
  | online
  | offline
deriving DecidableEq, Repr

/-- The devices-table columns touched by the modelled handlers
(crud.update_device_status): durable status flag, last_seen stamp, cached
status blob. -/
structure DeviceRow where
  id : String
  status : DeviceStatusEnumDB
  last_seen : Nat
  current_status : Option DeviceStatusUpdate
deriving DecidableEq, Repr

/-- crud.update_device_status: `UPDATE devices SET status, last_seen[, current_status]
WHERE id = device_id`; the status blob is written only when truthy (present). -/
def crud_update_device_status (tbl : List DeviceRow) (device_id : String)
    (status : DeviceStatusEnumDB) (current_status : Option DeviceStatusUpdate)
    (now : Nat) : List DeviceRow :=
  tbl.map (fun r =>
    if r.id = device_id then
      match current_status with
      | some cs => { r with status := status, last_seen := now, current_status := some cs }
      | none => { r with status := status, last_seen := now }
    else r)

/-- websocket.py handle_device_status.  The payload's deviceId and the result
of pydantic validation of the status dict are the inputs (a validation failure
raises, is caught, and leaves every piece of state untouched).  The sender
`sid` is received but never consulted. -/
def handle_device_status (reg : DeviceManager) (tbl : List DeviceRow) (sid : String)
    (deviceId : Option String) (status_data : Option DeviceStatusUpdate) (now : Nat) :
    DeviceManager × List DeviceRow × List Emit :=
  match deviceId with
  | none => (reg, tbl, [])
  | some did =>
      match status_data with
      | none => (reg, tbl, [])
      | some st =>
          (update_device_status reg did st now,
           crud_update_device_status tbl did DeviceStatusEnumDB.online (some st) now,
           [{ event := "server:device_status", target := "controllers:" ++ did }])

/-- websocket.py handle_device_frame: forwards to the controllers room of the
deviceId carried in the payload; drops the event when the id is missing. -/
def handle_device_frame (sid : String) (deviceId : Option String) : List Emit :=
  match deviceId with
  | none => []
  | some did => [{ event := "device:frame", target := "controllers:" ++ did }]

/-- websocket.py handle_device_heartbeat: stamps the heartbeat of the session
registered under the payload's deviceId and acks to the sender. -/
def handle_device_heartbeat (reg : DeviceManager) (sid : String)
    (deviceId : Option String) (now : Nat) : DeviceManager × List Emit :=
  match deviceId with
  | none => (reg, [])
  | some did =>
      (update_heartbeat reg did now,
       [{ event := "server:heartbeat_ack", target := sid }])

/-- websocket.py handle_command_ack: terminal transition keyed on the ack's
status string, then a forward to the controllers of the device registered
under the sender's socket. -/
def handle_command_ack (reg : DeviceManager) (db : List Command) (sid : String)
    (commandId status error : Option String) (now : Nat) :
    List Command × List Emit :=
  match commandId with
  | none => (db, [])
  | some cid =>
      let db2 :=
        if status = some "completed" then mark_completed db cid none now
        else if status = some "failed" then mark_completed db cid error now
        else db
      let emits :=
        match get_device_by_socket reg sid with
        | some device =>
            [{ event := "device:command_ack",
               target := "controllers:" ++ device.device_id }]
        | none => []
      (db2, emits)

/-! ### Concrete fixtures -/

/-- A concrete validated status payload. -/
def statusA : DeviceStatusUpdate :=
  { battery := 80, charging := true, network_type := "wifi", signal_strength := 3,
    camera_active := false, audio_active := false, location_enabled := true }

/-- A concrete queued command row. -/
def cmdA : Command :=
  { id := "cmdA", device_id := "dev1", action := "get_status", params := none,
    status := CommandStatusEnum.queued, created_at := 0, delivered_at := none,
    completed_at := none, error := none }

/-! ### Registry well-formedness -/

/-- Every identity-to-session entry of the registry is stored under its own
device id (established by register_device, which keys the entry by the id it
writes into the session). -/
def keyedDevices (m : DeviceManager) : Prop :=
  ∀ d sess, mapLookup m.devices d = some sess → sess.device_id = d

/-! ### C1 -/

/-- The registry state reached from an empty registry by registering dev1 on
socket s1, re-registering it on socket s2, then unregistering the stale
socket s1. -/
def reRegisteredManager : DeviceManager :=
  (unregister_device
    (register_device (register_device emptyManager "dev1" "s1" 0).1 "dev1" "s2" 1).1
    "s1").1

/-- C1 counterexample: after a device re-registers under a new connection
handle and the stale handle is unregistered, the socket-to-identity map still
holds the entry s2 ↦ dev1 while the identity-to-session map holds no entry
for dev1 at all — the entry-level bidirectional index consistency that the
claim asserts is preserved by every registry operation fails on this
reachable state. -/
theorem registry_bidir_counterexample :
    mapLookup reRegisteredManager.socket_to_device "s2" = some "dev1" ∧
    mapLookup reRegisteredManager.devices "dev1" = none ∧
    is_device_online reRegisteredManager "dev1" = false := by
  decide

/-- C1 amended: in any registry state whose device entries are keyed by their
own device id (which register_device always establishes and unregister_device
preserves), the lookup-level invariant holds — getSessionByConnection(h) = s
implies getSession(s.id) = s, and after unregisterDevice(h) both lookups
return nothing — but the entry-level socket-to-identity/identity-to-session
bidirectional consistency is not an invariant: re-registration under a new
handle leaves stale socket entries (see the counterexample). -/
theorem registry_lookup_invariant (m : DeviceManager) (hk : keyedDevices m) :
    (∀ h s, get_device_by_socket m h = some s → get_device m s.device_id = some s) ∧
    (∀ h s, get_device_by_socket m h = some s →
        get_device_by_socket (unregister_device m h).1 h = none ∧
        get_device (unregister_device m h).1 s.device_id = none) ∧
    (∀ d sck t, keyedDevices (register_device m d sck t).1) ∧
    (∀ sck, keyedDevices (unregister_device m sck).1) := by
  refine ⟨?_, ?_, ?_, ?_⟩
  · intro h s hbs
    unfold get_device_by_socket at hbs
    cases hlk : mapLookup m.socket_to_device h with
    | none => rw [hlk] at hbs; exact absurd hbs (by simp)
    | some d =>
        rw [hlk] at hbs
        have hid : s.device_id = d := hk d s hbs
        rw [get_device, hid]
        exact hbs
  · intro h s hbs
    unfold get_device_by_socket at hbs
    cases hlk : mapLookup m.socket_to_device h with
    | none => rw [hlk] at hbs; exact absurd hbs (by simp)
    | some d =>
        rw [hlk] at hbs
        have hid : s.device_id = d := hk d s hbs
        constructor
        · unfold unregister_device
          rw [hlk]
          simp [get_device_by_socket, mapLookup_erase_self]
        · unfold unregister_device
          rw [hlk]
          simp [get_device, hid, mapLookup_erase_self]
  · intro d sck t d2 sess hls
    by_cases hd : d2 = d
    · subst hd
      rw [register_device] at hls
      simp only at hls
      rw [mapLookup_insert_self] at hls
      cases hls
      rfl
    · rw [register_device] at hls
      simp only at hls
      rw [mapLookup_insert_other _ _ _ _ (fun he => hd he.symm)] at hls
      exact hk d2 sess hls
  · intro sck d2 sess hls
    unfold unregister_device at hls
    cases hlk : mapLookup m.socket_to_device sck with
    | none => rw [hlk] at hls; exact hk d2 sess hls
    | some d =>
        rw [hlk] at hls
        simp only at hls
        by_cases hd : d = d2
        · subst hd
          rw [mapLookup_erase_self] at hls
          cases hls
        · rw [mapLookup_erase_other _ _ _ hd] at hls
          exact hk d2 sess hls

/-- C1 amended, witnessed on a registry with one registered device. -/
theorem registry_lookup_invariant_witness :
    get_device (register_device emptyManager "dev1" "s1" 0).1 "dev1" =
      some ((register_device emptyManager "dev1" "s1" 0).2) := by
  have hk : keyedDevices (register_device emptyManager "dev1" "s1" 0).1 := by
    intro d sess hls
    simp only [register_device, emptyManager, mapInsert, mapLookup] at hls
    by_cases hd : "dev1" = d
    · rw [if_pos hd] at hls
      cases hls
      exact hd
    · rw [if_neg hd] at hls
      cases hls
  exact (registry_lookup_invariant (register_device emptyManager "dev1" "s1" 0).1 hk).1
    "s1" (register_device emptyManager "dev1" "s1" 0).2 (by decide)

/-! ### C10 -/

/-- C10: registering a device on s1, re-registering it on s2, then
unregistering the superseded handle s1 removes the current session — the
stale socket entry still points at the device id, so unregister_device pops
the device's only identity entry. -/
theorem stale_unregister_removes_current (m : DeviceManager) (D s1 s2 : String)
    (t1 t2 : Nat) (hne : s1 ≠ s2) :
    is_device_online
      (unregister_device (register_device (register_device m D s1 t1).1 D s2 t2).1 s1).1 D
      = false ∧
    get_device
      (unregister_device (register_device (register_device m D s1 t1).1 D s2 t2).1 s1).1 D
      = none := by
  have hlook :
      mapLookup ((register_device (register_device m D s1 t1).1 D s2 t2).1).socket_to_device s1
        = some D := by
    simp only [register_device]
    rw [mapLookup_insert_other _ _ _ _ (Ne.symm hne), mapLookup_insert_self]
  have hdev :
      (unregister_device (register_device (register_device m D s1 t1).1 D s2 t2).1 s1).1.devices
        = mapErase ((register_device (register_device m D s1 t1).1 D s2 t2).1).devices D := by
    unfold unregister_device
    rw [hlook]
  constructor
  · simp [is_device_online, hdev, mapLookup_erase_self]
  · simp [get_device, hdev, mapLookup_erase_self]

/-- C10 witness at concrete inputs. -/
theorem stale_unregister_removes_current_witness :
    is_device_online
      (unregister_device
        (register_device (register_device emptyManager "dev1" "s1" 0).1 "dev1" "s2" 1).1
        "s1").1 "dev1" = false ∧
    get_device
      (unregister_device
        (register_device (register_device emptyManager "dev1" "s1" 0).1 "dev1" "s2" 1).1
        "s1").1 "dev1" = none :=
  stale_unregister_removes_current emptyManager "dev1" "s1" "s2" 0 1 (by decide)

/-! ### C3 -/

/-- C3: queue_command reports was_delivered exactly when the registry holds a
live session for the device, and creates the row with status DELIVERED in that
case and QUEUED otherwise, appending it to the command table. -/
theorem queue_command_online_offline (reg : DeviceManager) (db : List Command)
    (id D a : String) (p : Option String) (t : Nat) (b : Bool)
    (h : is_device_online reg D = b) :
    (queue_command reg db id D a p t).2.2 = b ∧
    (queue_command reg db id D a p t).2.1.status =
      (if b then CommandStatusEnum.delivered else CommandStatusEnum.queued) ∧
    (queue_command reg db id D a p t).1 = db ++ [(queue_command reg db id D a p t).2.1] := by
  subst h
  cases hb : is_device_online reg D <;>
    simp [queue_command, create_command, hb]

/-- C3 witness: an offline device (empty registry) yields was_delivered =
false and a QUEUED row. -/
theorem queue_command_online_offline_witness :
    (queue_command emptyManager [] "X" "dev1" "get_status" none 0).2.2 = false ∧
    (queue_command emptyManager [] "X" "dev1" "get_status" none 0).2.1.status =
      (if false then CommandStatusEnum.delivered else CommandStatusEnum.queued) ∧
    (queue_command emptyManager [] "X" "dev1" "get_status" none 0).1 =
      [] ++ [(queue_command emptyManager [] "X" "dev1" "get_status" none 0).2.1] :=
  queue_command_online_offline emptyManager [] "X" "dev1" "get_status" none 0 false rfl

/-! ### C9 -/

/-- C9: updateStatus and updateHeartbeat are no-ops when the device id has no
live session; when it does, they replace only that device's session entry —
updating exactly the cached fields — and leave every other registry entry and
all three other maps untouched. -/
theorem update_status_heartbeat_frame (m : DeviceManager) (D : String)
    (st : DeviceStatusUpdate) (t : Nat) :
    (get_device m D = none →
        update_device_status m D st t = m ∧ update_heartbeat m D t = m) ∧
    (∀ d, get_device m D = some d →
        ((update_device_status m D st t).controllers = m.controllers ∧
         (update_device_status m D st t).socket_to_device = m.socket_to_device ∧
         (update_device_status m D st t).socket_to_controller = m.socket_to_controller ∧
         get_device (update_device_status m D st t) D =
           some ({ d with status := some st, last_heartbeat := t,
                          camera_active := st.camera_active,
                          audio_active := st.audio_active }) ∧
         (∀ D2, D2 ≠ D → get_device (update_device_status m D st t) D2 = get_device m D2)) ∧
        ((update_heartbeat m D t).controllers = m.controllers ∧
         (update_heartbeat m D t).socket_to_device = m.socket_to_device ∧
         (update_heartbeat m D t).socket_to_controller = m.socket_to_controller ∧
         get_device (update_heartbeat m D t) D = some ({ d with last_heartbeat := t }) ∧
         (∀ D2, D2 ≠ D → get_device (update_heartbeat m D t) D2 = get_device m D2))) := by
  constructor
  · intro hnone
    rw [get_device] at hnone
    constructor
    · unfold update_device_status
      rw [hnone]
    · unfold update_heartbeat
      rw [hnone]
  · intro d hsome
    rw [get_device] at hsome
    have hupd : update_device_status m D st t =
        { m with devices := mapInsert m.devices D ({ d with status := some st, last_heartbeat := t, camera_active := st.camera_active, audio_active := st.audio_active }) } := by
      unfold update_device_status
      rw [hsome]
    have hhb : update_heartbeat m D t =
        { m with devices := mapInsert m.devices D ({ d with last_heartbeat := t }) } := by
      unfold update_heartbeat
      rw [hsome]
    refine ⟨⟨?_, ?_, ?_, ?_, ?_⟩, ⟨?_, ?_, ?_, ?_, ?_⟩⟩
    · rw [hupd]
    · rw [hupd]
    · rw [hupd]
    · rw [hupd]; simp [get_device, mapLookup_insert_self]
    · intro D2 hne
      rw [hupd]
      simp only [get_device]
      exact mapLookup_insert_other _ _ _ _ (fun he => hne he.symm)
    · rw [hhb]
    · rw [hhb]
    · rw [hhb]
    · rw [hhb]; simp [get_device, mapLookup_insert_self]
    · intro D2 hne
      rw [hhb]
      simp only [get_device]
      exact mapLookup_insert_other _ _ _ _ (fun he => hne he.symm)

/-- C9 witness: on the empty registry both operations are no-ops. -/
theorem update_status_heartbeat_frame_witness :
    update_device_status emptyManager "dev1" statusA 3 = emptyManager ∧
    update_heartbeat emptyManager "dev1" 3 = emptyManager :=
  (update_status_heartbeat_frame emptyManager "dev1" statusA 3).1 rfl

/-! ### Lemmas on command-table updates -/

theorem applyUpdate_id (c : Command) (st : CommandStatusEnum) (err : Option String)
    (t : Nat) : (applyUpdate c st err t).id = c.id := by
  cases st <;> cases herr : errorTruthy err <;> simp [applyUpdate, herr]

theorem applyUpdate_failed (c : Command) (err : Option String) (t : Nat)
    (h : errorTruthy err = true) :
    applyUpdate c CommandStatusEnum.failed err t =
      { c with status := CommandStatusEnum.failed, completed_at := some t, error := err } := by
  simp [applyUpdate, h]

theorem applyUpdate_completed_none (c : Command) (t : Nat) :
    applyUpdate c CommandStatusEnum.completed none t =
      { c with status := CommandStatusEnum.completed, completed_at := some t } := by
  simp [applyUpdate, errorTruthy]

theorem applyUpdate_delivered_none (c : Command) (t : Nat) :
    applyUpdate c CommandStatusEnum.delivered none t = respDelivered c t := by
  simp [applyUpdate, errorTruthy, respDelivered]

theorem get_command_map (db : List Command) (cid : String) (f : Command → Command)
    (hf : ∀ c, (f c).id = c.id) :
    get_command (db.map f) cid = (get_command db cid).map f := by
  induction db with
  | nil => rfl
  | cons c rest ih =>
      simp only [List.map_cons, get_command, List.find?]
      rw [hf c]
      cases hd : decide (c.id = cid) <;> simp_all [get_command]

theorem get_command_update (db : List Command) (cid u : String)
    (st : CommandStatusEnum) (err : Option String) (t : Nat) :
    get_command (update_command_status db u st err t) cid =
      (get_command db cid).map (fun c => if c.id = u then applyUpdate c st err t else c) := by
  unfold update_command_status
  exact get_command_map db cid _ (fun c => by
    by_cases h : c.id = u <;> simp [h, applyUpdate_id])

theorem get_command_id (db : List Command) (cid : String) (c : Command)
    (h : get_command db cid = some c) : c.id = cid := by
  have := List.find?_some h
  simpa using this

/-- One failed acknowledgment with a truthy error: the row becomes FAILED with
that error and completed_at stamped at the ack instant. -/
theorem ack_failed_step (reg : DeviceManager) (db : List Command) (sid cid err : String)
    (t : Nat) (c0 : Command) (hc : get_command db cid = some c0) (herr : err ≠ "") :
    get_command (handle_command_ack reg db sid (some cid) (some "failed") (some err) t).1 cid
      = some ({ c0 with status := CommandStatusEnum.failed, completed_at := some t,
                        error := some err }) := by
  have htr : errorTruthy (some err) = true := by
    simp [errorTruthy, herr]
  have hid : c0.id = cid := get_command_id db cid c0 hc
  have hne : ¬((some "failed" : Option String) = some "completed") := by decide
  simp only [handle_command_ack, hne, if_false, if_true, mark_completed, htr, if_pos]
  rw [get_command_update, hc]
  simp [hid, applyUpdate_failed _ _ _ htr]

/-- One completed acknowledgment (the handler passes no error): the row
becomes COMPLETED with completed_at stamped at the ack instant. -/
theorem ack_completed_step (reg : DeviceManager) (db : List Command) (sid cid : String)
    (t : Nat) (c0 : Command) (hc : get_command db cid = some c0) :
    get_command (handle_command_ack reg db sid (some cid) (some "completed") none t).1 cid
      = some ({ c0 with status := CommandStatusEnum.completed, completed_at := some t }) := by
  have hid : c0.id = cid := get_command_id db cid c0 hc
  simp only [handle_command_ack, if_true, mark_completed, errorTruthy, if_pos]
  rw [get_command_update, hc]
  simp [hid, applyUpdate_completed_none]

/-- A failed acknowledgment whose error is falsy (absent or empty string):
mark_completed derives COMPLETED from the error's truthiness. -/
theorem ack_failed_falsy_step (reg : DeviceManager) (db : List Command) (sid cid : String)
    (err : Option String) (t : Nat) (c0 : Command) (hc : get_command db cid = some c0)
    (herr : errorTruthy err = false) :
    get_command (handle_command_ack reg db sid (some cid) (some "failed") err t).1 cid
      = some (applyUpdate c0 CommandStatusEnum.completed err t) := by
  have hid : c0.id = cid := get_command_id db cid c0 hc
  have hne : ¬((some "failed" : Option String) = some "completed") := by decide
  simp only [handle_command_ack, hne, if_false, if_true, mark_completed, herr]
  rw [get_command_update, hc]
  simp [hid]

/-! ### C4 -/

/-- A delivered command row used by the acknowledgment scenarios. -/
def cmdX : Command :=
  { id := "X", device_id := "dev1", action := "capture_photo", params := none,
    status := CommandStatusEnum.delivered, created_at := 0, delivered_at := some 1,
    completed_at := none, error := none }

/-- The table after acknowledging X as failed ("denied") at instant 5. -/
def ackDb1 : List Command :=
  (handle_command_ack emptyManager [cmdX] "s" (some "X") (some "failed") (some "denied") 5).1

/-- The table after re-sending the identical acknowledgment at instant 9. -/
def ackDb2 : List Command :=
  (handle_command_ack emptyManager ackDb1 "s" (some "X") (some "failed") (some "denied") 9).1

/-- C4 counterexample: the first failed ack stamps completed_at = 5; re-sending
the identical ack at instant 9 overwrites it to 9 — the completion timestamp
does not stay unchanged as the claim asserts. -/
theorem ack_retransmit_timestamp_counterexample :
    (get_command ackDb1 "X").map Command.completed_at = some (some 5) ∧
    (get_command ackDb2 "X").map Command.completed_at = some (some 9) ∧
    (get_command ackDb2 "X").map Command.completed_at ≠
      (get_command ackDb1 "X").map Command.completed_at := by
  decide

/-- C4 amended: acknowledging X as failed with an error string transitions the
record to FAILED with that error and a completion timestamp; re-sending the
identical acknowledgment is accepted without error and keeps the status and
error, but overwrites the completion timestamp with the instant of the
re-acknowledgment. -/
theorem ack_retransmit_overwrites_timestamp (reg1 reg2 : DeviceManager)
    (db : List Command) (sid1 sid2 cid err : String) (t1 t2 : Nat) (c0 : Command)
    (hc : get_command db cid = some c0) (herr : err ≠ "") :
    ∃ c1, get_command (handle_command_ack reg1 db sid1 (some cid) (some "failed") (some err) t1).1 cid = some c1 ∧
      c1.status = CommandStatusEnum.failed ∧ c1.error = some err ∧
      c1.completed_at = some t1 ∧
      ∃ c2, get_command (handle_command_ack reg2 (handle_command_ack reg1 db sid1 (some cid) (some "failed") (some err) t1).1 sid2 (some cid) (some "failed") (some err) t2).1 cid = some c2 ∧
        c2.status = CommandStatusEnum.failed ∧ c2.error = some err ∧
        c2.completed_at = some t2 := by
  have h1 := ack_failed_step reg1 db sid1 cid err t1 c0 hc herr
  refine ⟨_, h1, rfl, rfl, rfl, ?_⟩
  have h2 := ack_failed_step reg2
    (handle_command_ack reg1 db sid1 (some cid) (some "failed") (some err) t1).1
    sid2 cid err t2 _ h1 herr
  exact ⟨_, h2, rfl, rfl, rfl⟩

/-- C4 amended witness at concrete inputs. -/
theorem ack_retransmit_overwrites_timestamp_witness :
    ∃ c1, get_command (handle_command_ack emptyManager [cmdX] "s" (some "X") (some "failed") (some "denied") 5).1 "X" = some c1 ∧
      c1.status = CommandStatusEnum.failed ∧ c1.error = some "denied" ∧
      c1.completed_at = some 5 ∧
      ∃ c2, get_command (handle_command_ack emptyManager (handle_command_ack emptyManager [cmdX] "s" (some "X") (some "failed") (some "denied") 5).1 "s" (some "X") (some "failed") (some "denied") 9).1 "X" = some c2 ∧
        c2.status = CommandStatusEnum.failed ∧ c2.error = some "denied" ∧
        c2.completed_at = some 9 :=
  ack_retransmit_overwrites_timestamp emptyManager emptyManager [cmdX] "s" "s" "X"
    "denied" 5 9 cmdX (by decide) (by decide)

/-! ### C8 -/

/-- A second delivered command row. -/
def cmdY : Command :=
  { id := "Y", device_id := "dev1", action := "start_audio", params := none,
    status := CommandStatusEnum.delivered, created_at := 2, delivered_at := some 3,
    completed_at := none, error := none }

/-- C8 counterexample: acknowledging Y as failed WITHOUT an error string
transitions it to COMPLETED, not FAILED — mark_completed derives the terminal
status from the truthiness of the error, ignoring the ack's outcome. -/
theorem ack_failed_without_error_counterexample :
    (get_command (handle_command_ack emptyManager [cmdY] "s" (some "Y") (some "failed") none 5).1 "Y").map Command.status
      = some CommandStatusEnum.completed ∧
    (get_command (handle_command_ack emptyManager [cmdY] "s" (some "Y") (some "failed") none 5).1 "Y").map Command.status
      ≠ some CommandStatusEnum.failed := by
  decide

/-- C8 amended: an acknowledgment with outcome completed transitions the
command to COMPLETED; an acknowledgment with outcome failed transitions it to
FAILED only when a non-empty error string accompanies it — with the error
absent or empty, the command transitions to COMPLETED, because the terminal
status is derived from the error's truthiness rather than from the outcome
parameter. -/
theorem ack_outcome_determined_by_error (reg : DeviceManager) (db : List Command)
    (sid cid : String) (t : Nat) (c0 : Command) (hc : get_command db cid = some c0) :
    ((get_command (handle_command_ack reg db sid (some cid) (some "completed") none t).1 cid).map Command.status
        = some CommandStatusEnum.completed) ∧
    (∀ err, err ≠ "" →
      (get_command (handle_command_ack reg db sid (some cid) (some "failed") (some err) t).1 cid).map Command.status
        = some CommandStatusEnum.failed) ∧
    ((get_command (handle_command_ack reg db sid (some cid) (some "failed") none t).1 cid).map Command.status
        = some CommandStatusEnum.completed) ∧
    ((get_command (handle_command_ack reg db sid (some cid) (some "failed") (some "") t).1 cid).map Command.status
        = some CommandStatusEnum.completed) := by
  refine ⟨?_, ?_, ?_, ?_⟩
  · rw [ack_completed_step reg db sid cid t c0 hc]; rfl
  · intro err herr
    rw [ack_failed_step reg db sid cid err t c0 hc herr]; rfl
  · rw [ack_failed_falsy_step reg db sid cid none t c0 hc (by rfl)]
    simp [applyUpdate, errorTruthy]
  · rw [ack_failed_falsy_step reg db sid cid (some "") t c0 hc (by simp [errorTruthy])]
    simp [applyUpdate, errorTruthy]

/-- C8 amended witness at concrete inputs. -/
theorem ack_outcome_determined_by_error_witness :
    (get_command (handle_command_ack emptyManager [cmdY] "s" (some "Y") (some "completed") none 5).1 "Y").map Command.status
      = some CommandStatusEnum.completed :=
  (ack_outcome_determined_by_error emptyManager [cmdY] "s" "Y" 5 cmdY (by decide)).1

/-! ### C5 -/

/-- A registry with dev1 live on socket sdev and controller ctrl1 watching
dev1 from socket sctrl. -/
def regWatched : DeviceManager :=
  (register_controller (register_device emptyManager "dev1" "sdev" 0).1
    "ctrl1" "sctrl" "dev1" 0).1

/-- C5 counterexample: the socket "anon" is bound to no device and no
controller (it authenticated but never registered an identity), yet its
device:frame event fans out to dev1's controllers room, and its device:status
event mutates the registry — dev1's cached status snapshot becomes the
payload the stranger sent.  Events from an unregistered connection are not
dropped. -/
theorem unregistered_events_not_dropped_counterexample :
    get_device_by_socket regWatched "anon" = none ∧
    get_controller_by_socket regWatched "anon" = none ∧
    handle_device_frame "anon" (some "dev1")
      = [{ event := "device:frame", target := "controllers:dev1" }] ∧
    (get_device (handle_device_status regWatched [] "anon" (some "dev1") (some statusA) 7).1 "dev1").map ConnectedDevice.status
      = some (some statusA) ∧
    (handle_device_status regWatched [] "anon" (some "dev1") (some statusA) 7).1
      ≠ regWatched := by
  decide

/-- C5 amended: the event handlers gate only on the ids carried in the
payload, never on the sender: an event missing its device id is dropped, and
an event carrying one is processed identically whatever socket sent it —
registered or not — mutating state and fanning out to the device's
controllers. -/
theorem events_keyed_on_payload (reg : DeviceManager) (tbl : List DeviceRow)
    (sid1 sid2 : String) (d : Option String) (st : Option DeviceStatusUpdate) (t : Nat) :
    handle_device_frame sid1 d = handle_device_frame sid2 d ∧
    handle_device_frame sid1 none = [] ∧
    handle_device_status reg tbl sid1 d st t = handle_device_status reg tbl sid2 d st t ∧
    handle_device_status reg tbl sid1 none st t = (reg, tbl, []) ∧
    (handle_device_heartbeat reg sid1 d t).1 = (handle_device_heartbeat reg sid2 d t).1 ∧
    handle_device_heartbeat reg sid1 none t = (reg, []) := by
  cases d with
  | none => cases st <;> simp [handle_device_frame, handle_device_status, handle_device_heartbeat]
  | some did =>
      cases st <;> simp [handle_device_frame, handle_device_status, handle_device_heartbeat]

/-! ### Lemmas on deliver_queued_commands -/

theorem respDelivered_idem (c : Command) (t : Nat) :
    respDelivered (respDelivered c t) t = respDelivered c t := rfl

/-- The deliver loop's accumulated effect on the table: every row whose id
occurs among the fetched commands is marked DELIVERED (the update is
idempotent, so multiplicity does not matter), every other row is untouched. -/
theorem foldl_deliver_char (l : List Command) (db : List Command) (t : Nat) :
    l.foldl (fun acc cmd => update_command_status acc cmd.id CommandStatusEnum.delivered none t) db
      = db.map (fun c => if l.any (fun p => c.id = p.id) then respDelivered c t else c) := by
  induction l generalizing db with
  | nil => simp
  | cons p rest ih =>
      rw [List.foldl_cons, ih]
      unfold update_command_status
      rw [List.map_map]
      apply List.map_congr_left
      intro c _
      simp only [Function.comp_apply, List.any_cons]
      by_cases hc : c.id = p.id
      · rw [if_pos hc, applyUpdate_delivered_none]
        by_cases hr : rest.any (fun q => c.id = q.id)
        · have hr2 : rest.any (fun q => (respDelivered c t).id = q.id) = true := hr
          simp [hr, hr2, respDelivered_idem, hc]
        · have hr2 : ¬(rest.any (fun q => (respDelivered c t).id = q.id) = true) := hr
          simp [hr, hr2, hc]
      · rw [if_neg hc]
        by_cases hr : rest.any (fun q => c.id = q.id)
        · simp [hr, hc]
        · simp [hr, hc]

/-! ### C2 -/

/-- C2: deliverQueued returns exactly the device's pending/queued rows — each
transitioned to DELIVERED with a delivery stamp — in creation order (the
returned list is non-decreasing in created_at); in the resulting table every
pending/queued row of the device has become DELIVERED and no pending/queued
row of the device remains, so an immediately subsequent deliverQueued returns
the empty list and leaves the table unchanged (idempotent drain). -/
theorem deliver_queued_drain (db : List Command) (D : String) (t t2 : Nat) :
    (deliver_queued_commands db D t).2 =
      (get_pending_commands db D).map (fun c => respDelivered c t) ∧
    List.Pairwise createdLE (deliver_queued_commands db D t).2 ∧
    (∀ c ∈ (deliver_queued_commands db D t).2,
        c.status = CommandStatusEnum.delivered ∧ c.delivered_at = some t) ∧
    (∀ c ∈ db, c.device_id = D → isPendingStatus c.status = true →
        respDelivered c t ∈ (deliver_queued_commands db D t).1) ∧
    (∀ c ∈ (deliver_queued_commands db D t).1, c.device_id = D →
        isPendingStatus c.status = false) ∧
    deliver_queued_commands (deliver_queued_commands db D t).1 D t2 =
      ((deliver_queued_commands db D t).1, []) := by
  have hd1 : (deliver_queued_commands db D t).1 =
      db.map (fun c =>
        if (get_pending_commands db D).any (fun p => c.id = p.id) then respDelivered c t
        else c) := by
    unfold deliver_queued_commands
    exact foldl_deliver_char _ db t
  have hmem_pend : ∀ c ∈ db, c.device_id = D → isPendingStatus c.status = true →
      c ∈ get_pending_commands db D := by
    intro c hc hdev hpend
    unfold get_pending_commands
    rw [List.mem_insertionSort]
    exact List.mem_filter.mpr ⟨hc, by simp [hdev, hpend]⟩
  have hnone : ∀ c ∈ (deliver_queued_commands db D t).1, c.device_id = D →
      isPendingStatus c.status = false := by
    intro c2 hc2 hdev
    rw [hd1] at hc2
    obtain ⟨c, hc, hfc⟩ := List.mem_map.mp hc2
    by_cases hcond : (get_pending_commands db D).any (fun p => c.id = p.id)
    · rw [if_pos hcond] at hfc
      rw [← hfc]
      rfl
    · rw [if_neg hcond] at hfc
      subst hfc
      by_contra hpend
      have hpend2 : isPendingStatus c.status = true := by
        revert hpend
        cases isPendingStatus c.status <;> simp
      have : c ∈ get_pending_commands db D := hmem_pend c hc hdev hpend2
      exact hcond (List.any_eq_true.mpr ⟨c, this, by simp⟩)
  have hnil : get_pending_commands (deliver_queued_commands db D t).1 D = [] := by
    unfold get_pending_commands
    have : (deliver_queued_commands db D t).1.filter
        (fun c => c.device_id = D && isPendingStatus c.status) = [] := by
      rw [List.filter_eq_nil_iff]
      intro c hc
      intro hand
      rw [Bool.and_eq_true] at hand
      have := hnone c hc (by simpa using hand.1)
      rw [hand.2] at this
      cases this
    rw [this]
    rfl
  refine ⟨rfl, ?_, ?_, ?_, hnone, ?_⟩
  · have hs : List.Sorted createdLE (get_pending_commands db D) :=
      List.sorted_insertionSort createdLE _
    have : (deliver_queued_commands db D t).2 =
        (get_pending_commands db D).map (fun c => respDelivered c t) := rfl
    rw [this, List.pairwise_map]
    exact hs.imp (fun hab => hab)
  · intro c hc
    obtain ⟨c0, _, hfc⟩ := List.mem_map.mp hc
    rw [← hfc]
    exact ⟨rfl, rfl⟩
  · intro c hc hdev hpend
    rw [hd1]
    have hcond : (get_pending_commands db D).any (fun p => c.id = p.id) = true :=
      List.any_eq_true.mpr ⟨c, hmem_pend c hc hdev hpend, by simp⟩
    exact List.mem_map.mpr ⟨c, hc, by simp [hcond]⟩
  · have hX : get_pending_commands (deliver_queued_commands db D t).1 D = [] := hnil
    generalize (deliver_queued_commands db D t).1 = X at hX ⊢
    unfold deliver_queued_commands
    simp [hX]

/-- C2 witness: a single queued command is drained. -/
theorem deliver_queued_drain_witness :
    respDelivered cmdA 7 ∈ (deliver_queued_commands [cmdA] "dev1" 7).1 :=
  (deliver_queued_drain [cmdA] "dev1" 7 8).2.2.2.1 cmdA (by simp) rfl rfl

/-! ### C6 -/

/-- The forward order of the command lifecycle:
pending|queued → delivered → executing → completed|failed. -/
def rank : CommandStatusEnum → Nat
  | CommandStatusEnum.pending => 0
  | CommandStatusEnum.queued => 0
  | CommandStatusEnum.delivered => 1
  | CommandStatusEnum.executing => 2
  | CommandStatusEnum.completed => 3
  | CommandStatusEnum.failed => 3

theorem rank_le_three (s : CommandStatusEnum) : rank s ≤ 3 := by
  cases s <;> simp [rank]

theorem applyUpdate_status (c : Command) (st : CommandStatusEnum) (err : Option String)
    (t : Nat) : (applyUpdate c st err t).status = st := by
  cases st <;> cases herr : errorTruthy err <;> simp [applyUpdate, herr]

/-- Two rows of a duplicate-free table with the same primary key are the same
row. -/
theorem eq_of_id_eq (db : List Command) (hn : (db.map Command.id).Nodup) :
    ∀ a ∈ db, ∀ b ∈ db, a.id = b.id → a = b := by
  induction db with
  | nil =>
      intro a ha
      cases ha
  | cons c rest ih =>
      intro a ha b hb hid
      rw [List.map_cons, List.nodup_cons] at hn
      rcases List.mem_cons.mp ha with rfl | ha2
      · rcases List.mem_cons.mp hb with rfl | hb2
        · rfl
        · exact absurd (hid ▸ List.mem_map_of_mem Command.id hb2) hn.1
      · rcases List.mem_cons.mp hb with rfl | hb2
        · exact absurd (hid ▸ List.mem_map_of_mem Command.id ha2) hn.1
        · exact ih hn.2 a ha2 b hb2 hid

theorem mem_of_get_command (db : List Command) (cid : String) (c : Command)
    (h : get_command db cid = some c) : c ∈ db :=
  List.mem_of_find?_eq_some h

theorem get_command_append (db l2 : List Command) (cid : String) (c : Command)
    (h : get_command db cid = some c) : get_command (db ++ l2) cid = some c := by
  induction db with
  | nil => simp [get_command] at h
  | cons c0 rest ih =>
      unfold get_command at h ⊢
      rw [List.cons_append]
      simp only [List.find?] at h ⊢
      cases hd : decide (c0.id = cid) with
      | true => rw [hd] at h; exact h
      | false => rw [hd] at h; exact ih h

/-- C6 amended: with a duplicate-free table (the id column is the primary
key), no core operation ever lowers a command's position in the forward order
pending|queued → delivered → completed|failed: queueCommand leaves existing
rows untouched, deliverQueued only raises pending|queued rows to delivered,
and an acknowledgment only writes terminal statuses.  The original claim's
stronger guarantee — that a command can never move between the two terminal
statuses — fails: duplicate acknowledgments with conflicting outcomes flip a
row between completed and failed (see the counterexample). -/
theorem command_rank_never_decreases (reg : DeviceManager) (db : List Command)
    (hn : (db.map Command.id).Nodup) (cid : String) (c : Command)
    (hc : get_command db cid = some c) :
    (∀ id2 D a p t, get_command (queue_command reg db id2 D a p t).1 cid = some c) ∧
    (∀ D t c2, get_command (deliver_queued_commands db D t).1 cid = some c2 →
        rank c.status ≤ rank c2.status) ∧
    (∀ sid cido sto erro t c2,
        get_command (handle_command_ack reg db sid cido sto erro t).1 cid = some c2 →
        rank c.status ≤ rank c2.status) := by
  refine ⟨?_, ?_, ?_⟩
  · intro id2 D a p t
    simp only [queue_command, create_command]
    exact get_command_append db _ cid c hc
  · intro D t c2 hc2
    have hd1 : (deliver_queued_commands db D t).1 =
        db.map (fun c =>
          if (get_pending_commands db D).any (fun p => c.id = p.id) then respDelivered c t
          else c) := by
      unfold deliver_queued_commands
      exact foldl_deliver_char _ db t
    rw [hd1, get_command_map, hc] at hc2
    · simp only [Option.map_some'] at hc2
      by_cases hcond : (get_pending_commands db D).any (fun p => c.id = p.id)
      · rw [if_pos hcond] at hc2
        obtain ⟨p, hp, hpid⟩ := List.any_eq_true.mp hcond
        have hp2 : p ∈ db ∧ (p.device_id = D && isPendingStatus p.status) = true := by
          have := (List.mem_insertionSort createdLE).mp hp
          exact List.mem_filter.mp this
        have hpc : p = c := eq_of_id_eq db hn p hp2.1 c (mem_of_get_command db cid c hc)
          ((of_decide_eq_true hpid).symm)
        have hpend2 := hp2.2
        rw [Bool.and_eq_true] at hpend2
        have hcp : isPendingStatus c.status = true := by
          rw [← hpc]
          exact hpend2.2
        have hz : rank c.status = 0 := by
          revert hcp
          cases c.status <;> simp [isPendingStatus, rank]
        injection hc2 with h2
        rw [← h2, hz]
        exact Nat.zero_le _
      · rw [if_neg hcond] at hc2
        injection hc2 with h2
        rw [← h2]
    · intro c0
      by_cases h0 : (get_pending_commands db D).any (fun p => c0.id = p.id) <;>
        simp [h0, respDelivered]
  · intro sid cido sto erro t c2 hc2
    cases cido with
    | none =>
        have hsame : (handle_command_ack reg db sid none sto erro t).1 = db := rfl
        rw [hsame, hc] at hc2
        cases hc2
        rfl
    | some cid2 =>
        have hred : (handle_command_ack reg db sid (some cid2) sto erro t).1 =
            (if sto = some "completed" then mark_completed db cid2 none t
             else if sto = some "failed" then mark_completed db cid2 erro t
             else db) := rfl
        rw [hred] at hc2
        by_cases hcomp : sto = some "completed"
        · rw [if_pos hcomp] at hc2
          simp only [mark_completed] at hc2
          rw [get_command_update, hc] at hc2
          simp only [Option.map_some'] at hc2
          by_cases hid : c.id = cid2
          · rw [if_pos hid] at hc2
            injection hc2 with h2
            have h3 : rank (if errorTruthy none = true then CommandStatusEnum.failed else CommandStatusEnum.completed) = 3 := rfl
            rw [← h2, applyUpdate_status, h3]
            exact rank_le_three _
          · rw [if_neg hid] at hc2
            injection hc2 with h2
            rw [← h2]
        · rw [if_neg hcomp] at hc2
          by_cases hfail : sto = some "failed"
          · rw [if_pos hfail] at hc2
            simp only [mark_completed] at hc2
            rw [get_command_update, hc] at hc2
            simp only [Option.map_some'] at hc2
            by_cases hid : c.id = cid2
            · rw [if_pos hid] at hc2
              injection hc2 with h2
              have h3 : rank (if errorTruthy erro = true then CommandStatusEnum.failed else CommandStatusEnum.completed) = 3 := by
                cases htr : errorTruthy erro <;> simp [rank]
              rw [← h2, applyUpdate_status, h3]
              exact rank_le_three _
            · rw [if_neg hid] at hc2
              injection hc2 with h2
              rw [← h2]
          · rw [if_neg hfail, hc] at hc2
            cases hc2
            rfl

/-- C6 amended witness at concrete inputs. -/
theorem command_rank_never_decreases_witness :
    get_command (queue_command emptyManager [cmdA] "Z" "dev2" "get_status" none 5).1 "cmdA"
      = some cmdA :=
  (command_rank_never_decreases emptyManager [cmdA] (by decide) "cmdA" cmdA (by decide)).1
    "Z" "dev2" "get_status" none 5

/-- A queued command created while dev1 is offline. -/
def monoDb0 : List Command :=
  (queue_command emptyManager [] "M" "dev1" "start_camera" none 0).1

/-- The table after acknowledging M as completed. -/
def monoDb1 : List Command :=
  (handle_command_ack emptyManager monoDb0 "s" (some "M") (some "completed") none 1).1

/-- The table after a duplicate acknowledgment of M as failed. -/
def monoDb2 : List Command :=
  (handle_command_ack emptyManager monoDb1 "s" (some "M") (some "failed") (some "boom") 2).1

/-- C6 counterexample: the reachable operation sequence queueCommand (offline)
→ acknowledge completed → acknowledge failed moves M's status
queued → completed → failed: the last step moves a command between the two
terminal statuses, which the claim rules out. -/
theorem terminal_status_flip_counterexample :
    (get_command monoDb0 "M").map Command.status = some CommandStatusEnum.queued ∧
    (get_command monoDb1 "M").map Command.status = some CommandStatusEnum.completed ∧
    (get_command monoDb2 "M").map Command.status = some CommandStatusEnum.failed := by
  decide

/-! ### Lemmas on the queue-position scan -/

theorem findPos_spec (l : List Command) (cid : String) (k j : Nat)
    (h : findPos l cid k = some j) :
    ∃ n, ∃ (hn : n < l.length), j = k + n ∧ (l.get ⟨n, hn⟩).id = cid ∧
      ∀ m, ∀ (hm : m < l.length), m < n → ¬((l.get ⟨m, hm⟩).id = cid) := by
  induction l generalizing k j with
  | nil => cases h
  | cons c rest ih =>
      unfold findPos at h
      by_cases hc : c.id = cid
      · rw [if_pos hc] at h
        injection h with hj
        refine ⟨0, by simp, by omega, hc, ?_⟩
        intro m hm hm0
        omega
      · rw [if_neg hc] at h
        obtain ⟨n, hn, hj, hid, hbef⟩ := ih (k + 1) j h
        refine ⟨n + 1, by simpa using Nat.succ_lt_succ hn, by omega, by simpa using hid, ?_⟩
        intro m hm hmlt
        cases m with
        | zero => simpa using hc
        | succ m2 =>
            have hm2 : m2 < rest.length := by simpa using hm
            have hm2n : m2 < n := by omega
            have := hbef m2 hm2 hm2n
            simpa using this

theorem findPos_found (l : List Command) (cid : String) (k : Nat) (c : Command)
    (hc : c ∈ l) (hid : c.id = cid) : ∃ j, findPos l cid k = some j := by
  induction l generalizing k with
  | nil => cases hc
  | cons c0 rest ih =>
      unfold findPos
      by_cases h0 : c0.id = cid
      · exact ⟨k, by rw [if_pos h0]⟩
      · rcases List.mem_cons.mp hc with rfl | hmem
        · exact absurd hid h0
        · obtain ⟨j, hj⟩ := ih (k + 1) hmem
          exact ⟨j, by rw [if_neg h0]; exact hj⟩

theorem pending_ids_nodup (db : List Command) (D : String)
    (hn : (db.map Command.id).Nodup) :
    ((get_pending_commands db D).map Command.id).Nodup := by
  have hperm :
      List.Perm (get_pending_commands db D)
        (db.filter (fun c => c.device_id = D && isPendingStatus c.status)) :=
    List.perm_insertionSort createdLE _
  have hsub :
      List.Sublist
        ((db.filter (fun c => c.device_id = D && isPendingStatus c.status)).map Command.id)
        (db.map Command.id) :=
    (List.filter_sublist db).map Command.id
  have hnf :
      ((db.filter (fun c => c.device_id = D && isPendingStatus c.status)).map Command.id).Nodup :=
    List.Nodup.sublist hsub hn
  exact ((hperm.map Command.id).nodup_iff).mpr hnf

theorem mem_pending (db : List Command) (c : Command) (hc : c ∈ db)
    (hpend : isPendingStatus c.status = true) :
    c ∈ get_pending_commands db c.device_id := by
  unfold get_pending_commands
  rw [List.mem_insertionSort]
  exact List.mem_filter.mpr ⟨hc, by simp [hpend]⟩

theorem mem_db_of_mem_pending (db : List Command) (D : String) (c : Command)
    (hc : c ∈ get_pending_commands db D) :
    c ∈ db ∧ c.device_id = D ∧ isPendingStatus c.status = true := by
  unfold get_pending_commands at hc
  rw [List.mem_insertionSort] at hc
  obtain ⟨hdb, hpred⟩ := List.mem_filter.mp hc
  rw [Bool.and_eq_true] at hpred
  exact ⟨hdb, by simpa using hpred.1, hpred.2⟩

/-! ### C7 -/

/-- C7: with a duplicate-free table, queuePosition(C) returns exactly the
1-based position of C within its device's still pending/queued commands
ordered by creation time: it returns n+1 where C sits at index n of that
ordered list and no earlier index holds C's id; it returns 1 when C is
strictly the earliest-created still-queued command of the device; positions
strictly increase with creation time; and it returns nothing as soon as C's
status is anything other than pending or queued (delivered or terminal). -/
theorem queue_position_spec (db : List Command) (hn : (db.map Command.id).Nodup)
    (cid : String) (c : Command) (hc : get_command db cid = some c) :
    (isPendingStatus c.status = false → get_queue_position db cid = none) ∧
    (isPendingStatus c.status = true →
      ∃ n, ∃ (hlt : n < (get_pending_commands db c.device_id).length),
        get_queue_position db cid = some (n + 1) ∧
        (get_pending_commands db c.device_id).get ⟨n, hlt⟩ = c ∧
        (∀ m, ∀ (hm : m < (get_pending_commands db c.device_id).length), m < n →
          ¬(((get_pending_commands db c.device_id).get ⟨m, hm⟩).id = cid))) ∧
    (isPendingStatus c.status = true →
      (∀ c2 ∈ db, c2.device_id = c.device_id → isPendingStatus c2.status = true →
        ¬(c2.id = cid) → c.created_at < c2.created_at) →
      get_queue_position db cid = some 1) ∧
    (∀ cid2 c2, get_command db cid2 = some c2 → c2.device_id = c.device_id →
      isPendingStatus c.status = true → isPendingStatus c2.status = true →
      c.created_at < c2.created_at →
      ∃ j1 j2, get_queue_position db cid = some j1 ∧
        get_queue_position db cid2 = some j2 ∧ j1 < j2) := by
  have hcid : c.id = cid := get_command_id db cid c hc
  have hcmem : c ∈ db := mem_of_get_command db cid c hc
  refine ⟨?_, ?_, ?_, ?_⟩
  · intro hfalse
    unfold get_queue_position
    rw [hc]
    simp [hfalse]
  · intro htrue
    have hcpend : c ∈ get_pending_commands db c.device_id := mem_pending db c hcmem htrue
    obtain ⟨j, hj⟩ := findPos_found (get_pending_commands db c.device_id) cid 1 c hcpend hcid
    obtain ⟨n, hlt, hjek, hid, hbef⟩ := findPos_spec _ cid 1 j hj
    have hgetc : (get_pending_commands db c.device_id).get ⟨n, hlt⟩ = c :=
      eq_of_id_eq (get_pending_commands db c.device_id)
        (pending_ids_nodup db c.device_id hn) _ (List.get_mem _ _ _) c hcpend
        (by rw [hid, hcid])
    refine ⟨n, hlt, ?_, hgetc, hbef⟩
    unfold get_queue_position
    rw [hc]
    simp only [htrue, if_true]
    rw [hj, hjek, Nat.add_comm]
  · intro htrue hE
    have hcpend : c ∈ get_pending_commands db c.device_id := mem_pending db c hcmem htrue
    have hsorted : List.Sorted createdLE (get_pending_commands db c.device_id) :=
      List.sorted_insertionSort createdLE _
    unfold get_queue_position
    rw [hc]
    simp only [htrue, if_true]
    cases hpend : get_pending_commands db c.device_id with
    | nil =>
        rw [hpend] at hcpend
        cases hcpend
    | cons h0 t0 =>
        have hh0 : h0.id = cid := by
          by_contra hne
          have hh0mem : h0 ∈ get_pending_commands db c.device_id := by
            rw [hpend]
            exact List.mem_cons_self h0 t0
          obtain ⟨hdb0, hdev0, hpend0⟩ := mem_db_of_mem_pending db c.device_id h0 hh0mem
          have hstrict := hE h0 hdb0 hdev0 hpend0 hne
          rw [hpend] at hsorted hcpend
          have hrel : createdLE h0 c := by
            rcases List.mem_cons.mp hcpend with rfl | hct
            · exact absurd hcid hne
            · exact (List.sorted_cons.mp hsorted).1 c hct
          exact absurd hstrict (Nat.not_lt.mpr hrel)
        unfold findPos
        rw [if_pos hh0]
  · intro cid2 c2 hc2 hdev htrue htrue2 hlt
    have hcid2 : c2.id = cid2 := get_command_id db cid2 c2 hc2
    have hc2mem : c2 ∈ db := mem_of_get_command db cid2 c2 hc2
    have hcpend : c ∈ get_pending_commands db c.device_id := mem_pending db c hcmem htrue
    have hc2pend : c2 ∈ get_pending_commands db c.device_id := by
      rw [← hdev]
      exact mem_pending db c2 hc2mem htrue2
    have hsorted : List.Sorted createdLE (get_pending_commands db c.device_id) :=
      List.sorted_insertionSort createdLE _
    obtain ⟨j1, hj1⟩ := findPos_found (get_pending_commands db c.device_id) cid 1 c hcpend hcid
    obtain ⟨j2, hj2⟩ :=
      findPos_found (get_pending_commands db c.device_id) cid2 1 c2 hc2pend hcid2
    obtain ⟨n1, hlt1, hj1e, hid1, hbef1⟩ := findPos_spec _ cid 1 j1 hj1
    obtain ⟨n2, hlt2, hj2e, hid2, hbef2⟩ := findPos_spec _ cid2 1 j2 hj2
    have hget1 : (get_pending_commands db c.device_id).get ⟨n1, hlt1⟩ = c :=
      eq_of_id_eq (get_pending_commands db c.device_id)
        (pending_ids_nodup db c.device_id hn) _ (List.get_mem _ _ _) c hcpend
        (by rw [hid1, hcid])
    have hget2 : (get_pending_commands db c.device_id).get ⟨n2, hlt2⟩ = c2 :=
      eq_of_id_eq (get_pending_commands db c.device_id)
        (pending_ids_nodup db c.device_id hn) _ (List.get_mem _ _ _) c2 hc2pend
        (by rw [hid2, hcid2])
    have hne : n1 ≠ n2 := by
      intro he
      subst he
      rw [hget1] at hget2
      rw [hget2] at hlt
      exact Nat.lt_irrefl _ hlt
    have hn12 : n1 < n2 := by
      rcases Nat.lt_or_ge n1 n2 with h12 | h21
      · exact h12
      · have h21s : n2 < n1 := Nat.lt_of_le_of_ne h21 (fun he => hne he.symm)
        have hrel := List.Sorted.rel_get_of_lt hsorted
          (show (⟨n2, hlt2⟩ : Fin (get_pending_commands db c.device_id).length) < ⟨n1, hlt1⟩
            from h21s)
        rw [hget1, hget2] at hrel
        exact absurd hlt (Nat.not_lt.mpr hrel)
    refine ⟨j1, j2, ?_, ?_, by omega⟩
    · unfold get_queue_position
      rw [hc]
      simp only [htrue, if_true]
      exact hj1
    · unfold get_queue_position
      rw [hc2]
      simp only [htrue2, if_true]
      rw [hdev]
      exact hj2

/-- C7 witness: the sole queued command of dev1 is at position 1. -/
theorem queue_position_spec_witness : get_queue_position [cmdA] "cmdA" = some 1 :=
  (queue_position_spec [cmdA] (by decide) "cmdA" cmdA (by decide)).2.2.1 rfl
    (by
      intro c2 hmem hdev hpend hne
      rw [List.mem_singleton] at hmem
      subst hmem
      exact absurd rfl hne)

end Spyder
